import Mathlib

/-!
Verification of the booking-lifecycle and slot-negotiation engine of the
driver-queue bot (`bot.py`).  The Python handlers are shallowly embedded:
each handler's database mutation core becomes a pure Lean function on a
`Request` record; calendar dates are proleptic-Gregorian ordinals (the value
of Python's `date.toordinal()`), and datetimes are modelled at minute
granularity as (ordinal day, hour, minute) — every comparison or arithmetic
the embedded code performs on dates and times is expressible at that
granularity.  All datetimes are in the single configured time zone, so the
`to_kyiv` conversions of the source are identities here.
-/

namespace TgBot

/-- A wall-clock instant at minute granularity: `day` is the proleptic
Gregorian ordinal of the calendar date (Python `date.toordinal()`),
`hour`/`minute` the time of day. -/
structure DateTime where
  day : Int
  hour : Int
  minute : Int
deriving DecidableEq, Repr

/-- Total number of minutes represented by a `DateTime`; Python's ordering
and `timedelta` arithmetic on datetimes agree with integer arithmetic on
this value. -/
def dt_to_min (d : DateTime) : Int :=
  d.day * 1440 + d.hour * 60 + d.minute

/-- Python `date.weekday()` on an ordinal: ordinal 1 (0001-01-01) is a
Monday (`weekday() = 0`), so `weekday = (ordinal + 6) % 7`; Sunday is 6. -/
def py_weekday (d : Int) : Int :=
  (d + 6).emod 7

/-- The `requests` table row (class `Request` in `bot.py`).  `Date` columns
are ordinals, `TIMESTAMP` columns are `DateTime`s, `Text` columns are
`Option String` when nullable in practice. -/
structure Request where
  id : Int
  user_id : Int
  supplier : String
  driver_name : Option String := none
  phone : String
  car : String
  cargo_description : Option String := none
  docs_file_id : Option String := none
  cargo_type : Option String := none
  loading_type : String
  planned_date : Option Int := none
  planned_time : Option String := none
  date : Option Int := none
  time : Option String := none
  created_at : Option DateTime := none
  updated_at : Option DateTime := none
  status : String := "new"
  admin_id : Option Int := none
  sheet_row : Option Int := none
  completed_at : Option DateTime := none
  pending_date : Option Int := none
  pending_time : Option String := none
  pending_reason : Option String := none
deriving DecidableEq, Repr

/-- An approver row (`admins` table). -/
structure AdminRec where
  telegram_id : Int
  last_name : String := ""
  is_superadmin : Bool := false
deriving DecidableEq, Repr

/-! ## Slot calculator (`available_minutes`, `available_hours`,
`all_slots_for_day` in `bot.py`) -/

/-- `available_minutes(selected_date, hour, now_dt=…, earliest_dt=…)`.
The Python defaults (`kyiv_now()`, `None`) are made explicit arguments;
`to_kyiv` is the identity in this single-zone model.  The two early
`return []` paths of the source are the `none` branches of `step1` and the
first branch of the final `if`. -/
def available_minutes (selected_date : Int) (hour : Int)
    (now_dt : DateTime) (earliest_dt : Option DateTime) : List Int :=
  if hour < 9 ∨ 16 < hour then []
  else
    let step1 : Option (List Int) :=
      match earliest_dt with
      | some e =>
          if selected_date = e.day then
            if hour < e.hour then none
            else if hour = e.hour then some ([0, 30].filter (fun m => e.minute ≤ m))
            else some [0, 30]
          else some [0, 30]
      | none => some [0, 30]
    match step1 with
    | none => []
    | some ms =>
        if selected_date = now_dt.day then
          if hour < now_dt.hour then []
          else if hour = now_dt.hour then ms.filter (fun m => now_dt.minute ≤ m)
          else ms
        else ms

/-- `available_hours(selected_date, now_dt=…, earliest_dt=…)`: the hours in
`range(9, 17)` whose minute list is non-empty. -/
def available_hours (selected_date : Int)
    (now_dt : DateTime) (earliest_dt : Option DateTime) : List Int :=
  (((List.range 8).map (fun i => (9 : Int) + i)).filter
    (fun h => !(available_minutes selected_date h now_dt earliest_dt).isEmpty))

/-- Python `f"{n:02d}"` for the small non-negative numbers used by the
slot formatter. -/
def fmt02 (n : Int) : String :=
  if 0 ≤ n ∧ n < 10 then "0" ++ toString n else toString n

/-- `all_slots_for_day(selected_date)`: every half-hour slot between 09:00
and 16:30, regardless of the date argument. -/
def all_slots_for_day (selected_date : Int) : List String :=
  ((List.range 8).map (fun i => (9 : Int) + i)).flatMap
    (fun hour => ([0, 30] : List Int).map
      (fun minute => fmt02 hour ++ ":" ++ fmt02 minute))

/-! ## String primitives

Python's `str.strip`, `str.split` and `int()` are modelled on the character
list of the string so that every definition evaluates inside the kernel. -/

/-- An ASCII whitespace character (the characters `str.strip()` removes in
the inputs this bot sees). -/
def py_space (c : Char) : Bool :=
  c = ' ' ∨ c = '\t' ∨ c = '\n' ∨ c = '\r'

/-- Python `s.strip()`. -/
def py_strip (s : String) : String :=
  ⟨((s.data.dropWhile py_space).reverse.dropWhile py_space).reverse⟩

/-- Python `s.split(sep)` for a one-character separator, on char lists:
every occurrence splits, empty fields are kept. -/
def chars_split (sep : Char) : List Char → List (List Char)
  | [] => [[]]
  | c :: cs =>
      let rest := chars_split sep cs
      if c = sep then [] :: rest
      else
        match rest with
        | h :: t => (c :: h) :: t
        | [] => [[c]]

/-- Python `s.split(":")`. -/
def py_split_colon (s : String) : List String :=
  (chars_split ':' s.data).map (fun l => ⟨l⟩)

/-- The numeric value of a decimal digit character. -/
def digit_val? (c : Char) : Option Nat :=
  if c = '0' then some 0 else if c = '1' then some 1
  else if c = '2' then some 2 else if c = '3' then some 3
  else if c = '4' then some 4 else if c = '5' then some 5
  else if c = '6' then some 6 else if c = '7' then some 7
  else if c = '8' then some 8 else if c = '9' then some 9
  else none

/-- A non-empty all-digit character list as a number. -/
def digits_nat? (cs : List Char) : Option Nat :=
  if cs.isEmpty then none
  else cs.foldl (fun acc c =>
    match acc, digit_val? c with
    | some a, some d => some (a * 10 + d)
    | _, _ => none) (some 0)

/-- Python `int(s)`: optional surrounding whitespace, optional sign,
decimal digits; anything else raises (`none`). -/
def py_to_int? (s : String) : Option Int :=
  let cs := (s.data.dropWhile py_space).reverse.dropWhile py_space |>.reverse
  match cs with
  | '+' :: rest => (digits_nat? rest).map Int.ofNat
  | '-' :: rest => (digits_nat? rest).map (fun n => -(Int.ofNat n : Int))
  | _ => (digits_nat? cs).map Int.ofNat

/-- `p` is a prefix of `s` (on the character lists). -/
def str_starts_with (p s : String) : Bool :=
  p.data.isPrefixOf s.data

/-! ## Shared request helpers -/

/-- `merge_pending_reason(existing, prefix, reason)`: strip the reason; an
empty reason returns `existing or ""`; otherwise append `"tag: reason"` to
the existing log (a falsy — `None` or empty — log contributes nothing,
matching `[existing] if existing else []` plus `filter(None, parts)`). -/
def merge_pending_reason (existing : Option String) (tag : String)
    (reason : String) : String :=
  let r := py_strip reason
  if r = "" then existing.getD ""
  else
    let line := tag ++ ": " ++ r
    match existing with
    | some e => if e = "" then line else e ++ "\n" ++ line
    | none => line

/-- `get_user_modify_block_reason(req)`: why a requester-side mutation is
refused, or `none` when allowed. -/
def get_user_modify_block_reason (r : Request) : Option String :=
  if r.status = "deleted_by_user" then some "Заявка вже видалена"
  else if r.completed_at.isSome then some "Заявка вже завершена, зміни неможливі"
  else if r.status = "rejected" then
    some "Заявка відхилена адміністратором, редагування неможливе"
  else none

/-- The `[int(x) for x in t.split(":")[:2]]` parse of `get_confirmed_datetime`,
with the `datetime.time` range checks; any failure is the caught exception. -/
def parse_time_hm (t : String) : Option (Int × Int) :=
  match (py_split_colon t).take 2 with
  | [hs, ms] =>
      match py_to_int? hs, py_to_int? ms with
      | some h, some m =>
          if 0 ≤ h ∧ h ≤ 23 ∧ 0 ≤ m ∧ m ≤ 59 then some (h, m) else none
      | _, _ => none
  | _ => none

/-- `get_confirmed_datetime(req)`: combine the confirmed `date`/`time` columns
into an instant; `None`/empty columns or a bad parse yield `none`. -/
def get_confirmed_datetime (r : Request) : Option DateTime :=
  match r.date, r.time with
  | some d, some t =>
      if t = "" then none
      else
        match parse_time_hm t with
        | some (h, m) => some ⟨d, h, m⟩
        | none => none
  | _, _ => none

/-! ## Lifecycle handler cores

Each function is the database read-validate-write core of the handler of the
same name in `bot.py`: `none` means the handler returned without committing
a mutation (an alert/re-prompt to the actor), `some r'` is the committed
record.  Conversation plumbing (FSM keys, message texts, notifications,
sheet mirroring) is outside the model; actor identity and admin-ness checks
are passed in as arguments. -/

/-- `adm_ok`: unconditional approval — no status or terminal-state guard. -/
def adm_ok (admin_uid : Int) (now : DateTime) (r : Request) : Request :=
  { r with
    status := "approved"
    admin_id := some admin_uid
    updated_at := some now }

/-- `adm_rej_reason`: reject with a required non-empty reason; the reason is
only sent in notifications, never persisted to `pending_reason`. -/
def adm_rej_reason (reason : String) (admin_uid : Int) (now : DateTime)
    (r : Request) : Option Request :=
  if py_strip reason = "" then none
  else some { r with
    status := "rejected"
    admin_id := some admin_uid
    updated_at := some now }

/-- `adm_change_reason`: commit of the approver propose-change flow — store
the new planned slot, clear the counter-proposal slot, reset the negotiation
log to just the admin reason (`merge_pending_reason(None, "Admin", reason)`),
and await the requester. -/
def adm_change_reason (new_date : Int) (new_time reason : String)
    (admin_uid : Int) (now : DateTime) (r : Request) : Option Request :=
  if py_strip reason = "" then none
  else if new_time = "" then none
  else some { r with
    planned_date := some new_date
    planned_time := some new_time
    pending_date := none
    pending_time := none
    pending_reason := some (merge_pending_reason none "Admin" (py_strip reason))
    status := "pending_user_confirmation"
    admin_id := some admin_uid
    updated_at := some now }

/-- `user_change_confirm`: requester accepts the proposed slot; the planned
slot becomes the confirmed slot and the counter-proposal state is cleared. -/
def user_change_confirm (uid : Int) (now : DateTime) (r : Request) :
    Option Request :=
  if r.user_id = uid ∧
      (r.status = "pending_user_confirmation" ∨ r.status = "pending_user_final") then
    match r.planned_date, r.planned_time with
    | some pd, some pt =>
        if pt = "" then none
        else some { r with
          date := some pd
          time := some pt
          status := "approved"
          pending_date := none
          pending_time := none
          pending_reason := none
          updated_at := some now }
    | _, _ => none
  else none

/-- `user_change_delete_reason`: requester cancels during negotiation; the
record becomes `rejected` with the reason appended under `User cancel`. -/
def user_change_delete_reason (reason : String) (uid : Int) (now : DateTime)
    (r : Request) : Option Request :=
  if py_strip reason = "" then none
  else if r.user_id = uid ∧
      (r.status = "pending_user_confirmation" ∨ r.status = "pending_user_final") then
    some { r with
      status := "rejected"
      pending_date := none
      pending_time := none
      pending_reason := some (merge_pending_reason r.pending_reason "User cancel" (py_strip reason))
      updated_at := some now }
  else none

/-- `user_change_decline_reason`: requester declines the proposal without a
counter-slot; status becomes `pending_admin_decision` while
`pending_date`/`pending_time` are left untouched (null). -/
def user_change_decline_reason (reason : String) (uid : Int) (now : DateTime)
    (r : Request) : Option Request :=
  if py_strip reason = "" then none
  else if r.user_id = uid ∧ r.status = "pending_user_confirmation" then
    some { r with
      status := "pending_admin_decision"
      pending_reason := some (merge_pending_reason r.pending_reason "User" (py_strip reason))
      updated_at := some now }
  else none

/-- `if min_dt: if chosen_date < min_dt.date(): …` — the lead-time date
guard shared by the counter-propose and edit-date flows. -/
def before_min_date (min_dt : Option DateTime) (d : Int) : Bool :=
  match min_dt with
  | some md => decide (d < md.day)
  | none => false

/-- `user_change_minute`: commit of the requester counter-proposal — after
date, lead-time and slot-availability checks, store the counter slot in
`pending_date`/`pending_time` and move to `pending_admin_decision`.
`user_reason` defaults to the empty string in the source (`data.get`). -/
def user_change_minute (chosen_date chosen_hour chosen_minute : Int)
    (user_reason : String) (uid : Int) (now : DateTime)
    (min_dt : Option DateTime) (r : Request) : Option Request :=
  if chosen_date < now.day then none
  else if before_min_date min_dt chosen_date then none
  else if chosen_minute ∉ available_minutes chosen_date chosen_hour now min_dt then none
  else if r.user_id = uid ∧ r.status = "pending_user_confirmation" then
    some { r with
      pending_date := some chosen_date
      pending_time := some (fmt02 chosen_hour ++ ":" ++ fmt02 chosen_minute)
      status := "pending_admin_decision"
      pending_reason := some (merge_pending_reason r.pending_reason "User" user_reason)
      updated_at := some now }
  else none

/-- `adm_keep_client_time`: keep-original — the confirmed slot already on the
record becomes the planned slot again, counter-proposal state and log are
cleared, status `approved`. -/
def adm_keep_client_time (is_admin : Bool) (admin_uid : Int) (now : DateTime)
    (r : Request) : Option Request :=
  if ¬ is_admin then none
  else if r.status = "pending_admin_decision" ∨
      r.status = "pending_user_confirmation" ∨ r.status = "pending_user_final" then
    some { r with
      planned_date := r.date
      planned_time := r.time
      pending_date := none
      pending_time := none
      pending_reason := none
      status := "approved"
      admin_id := some admin_uid
      updated_at := some now }
  else none

/-- `adm_keep_admin_time`: keep-proposed — status moves to
`pending_user_final` with a fixed `Admin` log line; `pending_date` and
`pending_time` are NOT cleared. -/
def adm_keep_admin_time (is_admin : Bool) (now : DateTime) (r : Request) :
    Option Request :=
  if ¬ is_admin then none
  else if r.status = "pending_admin_decision" ∨
      r.status = "pending_user_confirmation" then
    some { r with
      status := "pending_user_final"
      pending_reason := some (merge_pending_reason r.pending_reason "Admin"
        "Адміністратор залишив запропонований час після відмови користувача.")
      updated_at := some now }
  else none

/-- `adm_accept_user_proposal`: accept-counter — the counter slot becomes
both planned and confirmed slot, counter state and log are cleared. -/
def adm_accept_user_proposal (is_admin : Bool) (admin_uid : Int)
    (now : DateTime) (r : Request) : Option Request :=
  if ¬ is_admin then none
  else if r.status = "pending_admin_decision" then
    match r.pending_date, r.pending_time with
    | some pd, some pt =>
        if pt = "" then none
        else some { r with
          planned_date := some pd
          planned_time := some pt
          date := some pd
          time := some pt
          pending_date := none
          pending_time := none
          pending_reason := none
          status := "approved"
          admin_id := some admin_uid
          updated_at := some now }
    | _, _ => none
  else none

/-- `adm_reject_user_proposal_reason`: reject-counter — clear the counter
slot, append the admin reason, move to `pending_user_final`. -/
def adm_reject_user_proposal_reason (reason : String) (admin_uid : Int)
    (now : DateTime) (r : Request) : Option Request :=
  if py_strip reason = "" then none
  else if r.status = "pending_admin_decision" then
    some { r with
      pending_date := none
      pending_time := none
      status := "pending_user_final"
      pending_reason := some (merge_pending_reason r.pending_reason "Admin" (py_strip reason))
      admin_id := some admin_uid
      updated_at := some now }
  else none

/-- `complete_request`: finish — refuse (`None`) when already completed or
not approved; otherwise set `completed_at` (once) and bump `updated_at`. -/
def complete_request (now : DateTime) (r : Request) : Option Request :=
  if r.completed_at.isSome ∨ r.status ≠ "approved" then none
  else some { r with
    completed_at := some now
    updated_at := some now }

/-- `user_edit_supplier` followed by `finalize_user_edit_update`: requester
edits a descriptive field; ownership and `get_user_modify_block_reason`
guards, then status resets to `new` and the approver assignment is cleared. -/
def user_edit_supplier (value : String) (uid : Int) (now : DateTime)
    (r : Request) : Option Request :=
  if py_strip value = "" then none
  else if r.user_id = uid then
    match get_user_modify_block_reason r with
    | some _ => none
    | none => some { r with
        supplier := py_strip value
        status := "new"
        admin_id := none
        updated_at := some now }
  else none

/-- `user_edit_minute` followed by `finalize_user_edit_update`: requester
re-picks the date/time; after date, lead-time and availability checks the
chosen slot is written to both the confirmed and planned columns and the
status resets to `new`.  The counter-proposal columns are not touched. -/
def user_edit_minute (chosen_date chosen_hour chosen_minute : Int)
    (uid : Int) (now : DateTime) (min_dt : Option DateTime) (r : Request) :
    Option Request :=
  if chosen_date < now.day then none
  else if before_min_date min_dt chosen_date then none
  else if chosen_minute ∉ available_minutes chosen_date chosen_hour now min_dt then none
  else if r.user_id = uid then
    match get_user_modify_block_reason r with
    | some _ => none
    | none =>
        let planned_min : Int := chosen_date * 1440 + chosen_hour * 60 + chosen_minute
        let min_allowed_min : Int :=
          match min_dt with
          | some md => dt_to_min md
          | none => dt_to_min ((r.created_at).getD now) + 60
        if planned_min < min_allowed_min then none
        else some { r with
          date := some chosen_date
          time := some (fmt02 chosen_hour ++ ":" ++ fmt02 chosen_minute)
          planned_date := some chosen_date
          planned_time := some (fmt02 chosen_hour ++ ":" ++ fmt02 chosen_minute)
          status := "new"
          admin_id := none
          updated_at := some now }
  else none

/-! ## The lifecycle step relation -/

/-- One record-mutating actor action of the lifecycle engine, carrying the
conversation inputs its handler reads. -/
inductive Action where
  | admOk (admin_uid : Int) (now : DateTime)
  | admRejReason (reason : String) (admin_uid : Int) (now : DateTime)
  | admChangeReason (new_date : Int) (new_time reason : String)
      (admin_uid : Int) (now : DateTime)
  | userChangeConfirm (uid : Int) (now : DateTime)
  | userChangeDeleteReason (reason : String) (uid : Int) (now : DateTime)
  | userChangeDeclineReason (reason : String) (uid : Int) (now : DateTime)
  | userCounterPropose (chosen_date chosen_hour chosen_minute : Int)
      (user_reason : String) (uid : Int) (now : DateTime)
      (min_dt : Option DateTime)
  | admKeepClientTime (is_admin : Bool) (admin_uid : Int) (now : DateTime)
  | admKeepAdminTime (is_admin : Bool) (now : DateTime)
  | admAcceptUserProposal (is_admin : Bool) (admin_uid : Int) (now : DateTime)
  | admRejectUserProposalReason (reason : String) (admin_uid : Int)
      (now : DateTime)
  | finish (now : DateTime)
  | userEditSupplier (value : String) (uid : Int) (now : DateTime)
  | userEditDateTime (chosen_date chosen_hour chosen_minute : Int)
      (uid : Int) (now : DateTime) (min_dt : Option DateTime)
deriving DecidableEq

/-- Dispatch an action to its handler core; `none` = refused, no commit. -/
def step : Action → Request → Option Request
  | .admOk a now, r => some (adm_ok a now r)
  | .admRejReason re a now, r => adm_rej_reason re a now r
  | .admChangeReason d t re a now, r => adm_change_reason d t re a now r
  | .userChangeConfirm u now, r => user_change_confirm u now r
  | .userChangeDeleteReason re u now, r => user_change_delete_reason re u now r
  | .userChangeDeclineReason re u now, r => user_change_decline_reason re u now r
  | .userCounterPropose d h m re u now md, r => user_change_minute d h m re u now md r
  | .admKeepClientTime ia a now, r => adm_keep_client_time ia a now r
  | .admKeepAdminTime ia now, r => adm_keep_admin_time ia now r
  | .admAcceptUserProposal ia a now, r => adm_accept_user_proposal ia a now r
  | .admRejectUserProposalReason re a now, r => adm_reject_user_proposal_reason re a now r
  | .finish now, r => complete_request now r
  | .userEditSupplier v u now, r => user_edit_supplier v u now r
  | .userEditDateTime d h m u now md, r => user_edit_minute d h m u now md r

/-- Requester-side actions together with finish: the actions the terminal
states refuse. -/
def Action.requesterOrFinish : Action → Bool
  | .userChangeConfirm _ _ => true
  | .userChangeDeleteReason _ _ _ => true
  | .userChangeDeclineReason _ _ _ => true
  | .userCounterPropose _ _ _ _ _ _ _ => true
  | .finish _ => true
  | .userEditSupplier _ _ _ => true
  | .userEditDateTime _ _ _ _ _ _ => true
  | _ => false

/-- The requester counter-proposal action. -/
def Action.isCounterPropose : Action → Bool
  | .userCounterPropose _ _ _ _ _ _ _ => true
  | _ => false

/-- The actions whose handler appends to `pending_reason` via
`merge_pending_reason(req.pending_reason, …)`. -/
def Action.appendsReason : Action → Bool
  | .userChangeDeleteReason _ _ _ => true
  | .userChangeDeclineReason _ _ _ => true
  | .userCounterPropose _ _ _ _ _ _ _ => true
  | .admKeepAdminTime _ _ => true
  | .admRejectUserProposalReason _ _ _ => true
  | _ => false

/-- A terminal record in the spec's sense: rejected, withdrawn
(`deleted_by_user`), or approved-and-completed. -/
def Terminal (r : Request) : Prop :=
  r.status = "rejected" ∨ r.status = "deleted_by_user" ∨
    (r.status = "approved" ∧ r.completed_at.isSome)

/-! ## Store-level operations -/

/-- `my_delete_reason`: requester hard-deletes an owned request (non-empty
reason, not blocked); the row is removed from the store, no status is
written. -/
def my_delete_reason (store : List Request) (req_id uid : Int)
    (reason : String) : Option (List Request) :=
  if py_strip reason = "" then none
  else
    match store.find? (fun q => q.id == req_id) with
    | none => none
    | some r =>
        if r.user_id ≠ uid then none
        else
          match get_user_modify_block_reason r with
          | some _ => none
          | none => some (store.filter (fun q => q.id != req_id))

/-- `adm_delete`: admin hard delete — requester lookup, admin lookup,
superadmin check (`user_id == SUPERADMIN_ID or admin.is_superadmin`), and
the NEW-requires-superadmin guard, then removal. -/
def adm_delete (store : List Request) (admins : List AdminRec)
    (superadmin_id uid req_id : Int) : Except String (List Request) :=
  match store.find? (fun q => q.id == req_id) with
  | none => .error "Заявка не знайдена"
  | some r =>
      let admin := admins.find? (fun a => a.telegram_id == uid)
      let is_sup : Bool :=
        uid == superadmin_id ||
          (match admin with | some a => a.is_superadmin | none => false)
      if ¬ (is_sup || admin.isSome) then .error "Ви не адміністратор."
      else if is_sup = false ∧ r.status = "new" then
        .error "Заявки зі статусом Нова може видаляти лише суперадміністратор."
      else .ok (store.filter (fun q => q.id != req_id))

/-! ## Completion sweeper (`_auto_close_tick`) -/

/-- The deadline (in minutes) after which one approved request is
auto-closed: confirmed-slot instant + 20 h when the confirmed slot parses,
else `updated_at or created_at` + 20 h; `none` when no base instant exists
(the loop's `continue`). -/
def sweep_deadline_min (r : Request) : Option Int :=
  match get_confirmed_datetime r with
  | some c => some (dt_to_min c + 20 * 60)
  | none =>
      match r.updated_at with
      | some u => some (dt_to_min u + 20 * 60)
      | none =>
          match r.created_at with
          | some cr => some (dt_to_min cr + 20 * 60)
          | none => none

/-- One request's handling inside `_auto_close_tick`: requests outside the
scan (not approved or already completed) and requests before their deadline
are left unchanged; past-deadline requests go through `complete_request`. -/
def auto_close_tick_one (now : DateTime) (r : Request) : Request :=
  if r.status = "approved" ∧ r.completed_at = none then
    match sweep_deadline_min r with
    | some deadline =>
        if deadline ≤ dt_to_min now then (complete_request now r).getD r else r
    | none => r
  else r

/-! ## Admin slots overview (`render_slots_overview`) -/

/-- `get_status_label(status)`: display label, defaulting to the raw value. -/
def get_status_label (status : String) : String :=
  if status = "new" then "🟢 На розгляді"
  else if status = "approved" then "✅ Підтверджена"
  else if status = "rejected" then "❌ Відхилена"
  else if status = "deleted_by_user" then "⛔ Скасована користувачем"
  else if status = "pending_user_confirmation" then "🟡 Чекає підтвердження користувача"
  else if status = "pending_admin_decision" then "🟠 Чекає рішення адміністратора"
  else if status = "pending_user_final" then "🟡 Очікує остаточного підтвердження"
  else status

/-- `slot_time = req.planned_time or req.time` with the falsy skip
(`if not slot_time: continue`): the slot key a request occupies, if any. -/
def slot_key (r : Request) : Option String :=
  match r.planned_time with
  | some s => if s = "" then (match r.time with
      | some t => if t = "" then none else some t
      | none => none) else some s
  | none =>
      match r.time with
      | some t => if t = "" then none else some t
      | none => none

/-- The store query of `render_slots_overview`: requests planned on the day,
except rejected / user-deleted ones. -/
def slots_day_query (store : List Request) (target_date : Int) : List Request :=
  store.filter (fun r =>
    r.planned_date == some target_date &&
      !(r.status == "rejected" || r.status == "deleted_by_user"))

/-- The per-slot body lines of `render_slots_overview`: one line per entry
of `all_slots_for_day`, busy or free. -/
def overview_slot_lines (target_date : Int) (requests_for_day : List Request) :
    List String :=
  (all_slots_for_day target_date).map (fun slot =>
    let requests_in_slot := requests_for_day.filter (fun r => slot_key r == some slot)
    if requests_in_slot.isEmpty then slot ++ " — ✅ Вільно"
    else slot ++ " — 🚧 Зайнято: " ++
      String.intercalate "; " (requests_in_slot.map (fun r =>
        r.supplier ++ " (#" ++ toString r.id ++ ", " ++ get_status_label r.status ++ ")")))

end TgBot

namespace TgBot

/-! # Claim theorems -/

/-! ## C10 — `all_slots_for_day` ignores its date -/

/-- C10: `all_slots_for_day` ignores its date argument and returns, for every
date — Sundays and past dates included — the same 16 slot strings "09:00"
through "16:30" in 30-minute steps, and the admin slots overview therefore
renders a full 16-line slot grid for every day. -/
theorem c10_all_slots_ignore_date :
    ∀ (d : Int) (reqs : List Request),
      all_slots_for_day d =
        ["09:00", "09:30", "10:00", "10:30", "11:00", "11:30", "12:00", "12:30",
         "13:00", "13:30", "14:00", "14:30", "15:00", "15:30", "16:00", "16:30"] ∧
      (overview_slot_lines d reqs).length = 16 := by
  intro d reqs
  have hs : all_slots_for_day d =
      ["09:00", "09:30", "10:00", "10:30", "11:00", "11:30", "12:00", "12:30",
       "13:00", "13:30", "14:00", "14:30", "15:00", "15:30", "16:00", "16:30"] := rfl
  refine ⟨hs, ?_⟩
  simp [overview_slot_lines, hs]

/-! ## C2 — the slot calculator and excluded dates -/

/-- C2 is false on the code: ordinal 7 (0001-01-07) is a Sunday
(`weekday() = 6`) and lies strictly before the lead-time floor's date
(ordinal 100), yet `available_hours`/`available_minutes` return the full
operating window rather than the empty set. -/
theorem c2_counterexample :
    py_weekday 7 = 6 ∧
    (7 : Int) < 100 ∧
    available_hours 7 ⟨50, 12, 0⟩ (some ⟨100, 9, 0⟩) = [9, 10, 11, 12, 13, 14, 15, 16] ∧
    available_hours 7 ⟨50, 12, 0⟩ (some ⟨100, 9, 0⟩) ≠ [] ∧
    available_minutes 7 9 ⟨50, 12, 0⟩ (some ⟨100, 9, 0⟩) = [0, 30] := by decide

/-- C2 (amended): the slot calculator performs no Sunday check and no check
for dates before the lead-time floor.  For any date other than the floor's
date and the current date — Sundays and dates strictly before the floor
included — it returns the full operating window: hours 9–16, each with
minutes {0, 30}; outside hours 9–16 the minute set is empty.  Sundays and
past dates are excluded only by the calendar UI (`hide_sundays`) and the
explicit guards in the selection handlers, not by the calculator. -/
theorem c2_amended_no_exclusion_in_calculator
    (d h : Int) (now e : DateTime)
    (hde : d ≠ e.day) (hdn : d ≠ now.day) :
    available_hours d now (some e) = [9, 10, 11, 12, 13, 14, 15, 16] ∧
    (9 ≤ h → h ≤ 16 → available_minutes d h now (some e) = [0, 30]) ∧
    ((h < 9 ∨ 16 < h) → available_minutes d h now (some e) = []) := by
  have hm : ∀ hh : Int, ¬ (hh < 9 ∨ 16 < hh) →
      available_minutes d hh now (some e) = [0, 30] := by
    intro hh hhh
    simp [available_minutes, hde, hdn, hhh]
  refine ⟨?_, ?_, ?_⟩
  · have h9 := hm 9 (by norm_num)
    have h10 := hm 10 (by norm_num)
    have h11 := hm 11 (by norm_num)
    have h12 := hm 12 (by norm_num)
    have h13 := hm 13 (by norm_num)
    have h14 := hm 14 (by norm_num)
    have h15 := hm 15 (by norm_num)
    have h16 := hm 16 (by norm_num)
    have hlist : ((List.range 8).map (fun i => (9 : Int) + i))
        = [9, 10, 11, 12, 13, 14, 15, 16] := rfl
    simp [available_hours, hlist, List.filter, h9, h10, h11, h12, h13, h14, h15, h16]
  · intro hl hr
    exact hm h (by omega)
  · intro hout
    simp [available_minutes, hout]

/-- Witness for the amended C2 at a concrete Sunday before the floor. -/
theorem c2_amended_witness :
    ((7 : Int) ≠ (100 : Int) ∧ (7 : Int) ≠ (50 : Int)) ∧
    (available_hours 7 ⟨50, 12, 0⟩ (some ⟨100, 9, 0⟩) = [9, 10, 11, 12, 13, 14, 15, 16] ∧
     (9 ≤ (9 : Int) → (9 : Int) ≤ 16 →
        available_minutes 7 9 ⟨50, 12, 0⟩ (some ⟨100, 9, 0⟩) = [0, 30]) ∧
     (((9 : Int) < 9 ∨ 16 < (9 : Int)) →
        available_minutes 7 9 ⟨50, 12, 0⟩ (some ⟨100, 9, 0⟩) = [])) :=
  ⟨⟨by decide, by decide⟩,
   c2_amended_no_exclusion_in_calculator 7 9 ⟨50, 12, 0⟩ ⟨100, 9, 0⟩ (by decide) (by decide)⟩

/-! ## C7 — idempotence of finish -/

/-- C7: on an approved, not-yet-completed request, `complete_request` sets
`completed_at` exactly once; a second invocation returns `None` (the
closed-request refusal) and commits no mutation. -/
theorem c7_finish_idempotent (r : Request) (now now2 : DateTime)
    (h1 : r.status = "approved") (h2 : r.completed_at = none) :
    complete_request now r =
      some { r with completed_at := some now, updated_at := some now } ∧
    complete_request now2 { r with completed_at := some now, updated_at := some now } = none := by
  constructor
  · simp [complete_request, h1, h2]
  · simp [complete_request]

/-- Concrete instance of C7. -/
def reqC7 : Request :=
  { id := 21, user_id := 10, supplier := "Постачальник", phone := "380501112233",
    car := "10т", loading_type := "Палети", status := "approved",
    planned_date := some 739200, planned_time := some "10:00",
    date := some 739200, time := some "10:00",
    created_at := some ⟨739198, 12, 0⟩, updated_at := some ⟨739199, 12, 0⟩ }

/-- Witness for C7. -/
theorem c7_witness :
    (reqC7.status = "approved" ∧ reqC7.completed_at = none) ∧
    (complete_request ⟨739205, 9, 0⟩ reqC7 =
      some { reqC7 with completed_at := some ⟨739205, 9, 0⟩, updated_at := some ⟨739205, 9, 0⟩ } ∧
     complete_request ⟨739206, 9, 0⟩
        { reqC7 with completed_at := some ⟨739205, 9, 0⟩, updated_at := some ⟨739205, 9, 0⟩ } = none) :=
  ⟨⟨rfl, rfl⟩, c7_finish_idempotent reqC7 ⟨739205, 9, 0⟩ ⟨739206, 9, 0⟩ rfl rfl⟩

/-! ## C5 — requester-delete -/

/-- C5 (amended): requester-delete with a non-empty reason on an owned,
non-blocked request hard-removes the record from the Store (the handler
calls `session.delete`); no `WITHDRAWN`/`deleted_by_user` status is ever
assigned — that status survives only in display labels and in the block
guard for legacy rows. -/
theorem c5_amended_hard_delete (store : List Request) (r : Request)
    (req_id uid : Int) (reason : String)
    (hre : py_strip reason ≠ "")
    (hfind : store.find? (fun q => q.id == req_id) = some r)
    (hown : r.user_id = uid)
    (hblock : get_user_modify_block_reason r = none) :
    my_delete_reason store req_id uid reason =
      some (store.filter (fun q => q.id != req_id)) ∧
    ∀ q ∈ store.filter (fun q => q.id != req_id), q.id ≠ req_id := by
  constructor
  · simp [my_delete_reason, hre, hfind, hown, hblock]
  · intro q hq
    have h := List.of_mem_filter hq
    simpa using h

/-- Concrete requester-deletable request. -/
def reqC5 : Request :=
  { id := 5, user_id := 10, supplier := "Постачальник", phone := "380501112233",
    car := "5т", loading_type := "Навалом", status := "new",
    planned_date := some 739210, planned_time := some "09:30",
    date := some 739210, time := some "09:30",
    created_at := some ⟨739208, 8, 0⟩, updated_at := some ⟨739208, 8, 0⟩ }

/-- C5 fails as stated: after a requester delete the store is empty — the
record does not remain with status `WITHDRAWN`; it is gone. -/
theorem c5_counterexample :
    reqC5.status = "new" ∧
    my_delete_reason [reqC5] 5 10 "передумав" = some [] := by
  exact ⟨rfl, by decide⟩

/-- Witness for the amended C5. -/
theorem c5_witness :
    (py_strip "передумав" ≠ "" ∧
     [reqC5].find? (fun q => q.id == 5) = some reqC5 ∧
     reqC5.user_id = 10 ∧
     get_user_modify_block_reason reqC5 = none) ∧
    (my_delete_reason [reqC5] 5 10 "передумав" =
       some ([reqC5].filter (fun q => q.id != 5)) ∧
     ∀ q ∈ [reqC5].filter (fun q => q.id != 5), q.id ≠ 5) :=
  ⟨⟨by decide, by decide, rfl, by decide⟩,
   c5_amended_hard_delete [reqC5] reqC5 5 10 "передумав" (by decide) (by decide) rfl (by decide)⟩

/-! ## C8 — sweeper auto-completion -/

/-- C8: for an approved, not-yet-completed request with a recorded
last-update instant, one sweep tick completes the request exactly when
now ≥ deadline, where the deadline is the confirmed-slot instant plus the
20-hour grace period when the confirmed slot exists, and otherwise the
last-update instant plus the same grace period; otherwise the record is
left unchanged. -/
theorem c8_sweeper_deadline (r : Request) (now u : DateTime)
    (h1 : r.status = "approved") (h2 : r.completed_at = none)
    (h3 : r.updated_at = some u) :
    (∀ c, get_confirmed_datetime r = some c →
      auto_close_tick_one now r =
        if dt_to_min c + 20 * 60 ≤ dt_to_min now
        then { r with completed_at := some now, updated_at := some now }
        else r) ∧
    (get_confirmed_datetime r = none →
      auto_close_tick_one now r =
        if dt_to_min u + 20 * 60 ≤ dt_to_min now
        then { r with completed_at := some now, updated_at := some now }
        else r) := by
  constructor
  · intro c hc
    have e1 : auto_close_tick_one now r =
        if dt_to_min c + 20 * 60 ≤ dt_to_min now
        then (complete_request now r).getD r else r := by
      simp only [auto_close_tick_one, sweep_deadline_min, hc, h1, h2, and_self, if_true]
    rw [e1]
    by_cases hle : dt_to_min c + 20 * 60 ≤ dt_to_min now
    · rw [if_pos hle, if_pos hle]
      simp [complete_request, h1, h2]
    · rw [if_neg hle, if_neg hle]
  · intro hc
    have e1 : auto_close_tick_one now r =
        if dt_to_min u + 20 * 60 ≤ dt_to_min now
        then (complete_request now r).getD r else r := by
      simp only [auto_close_tick_one, sweep_deadline_min, hc, h1, h2, h3, and_self, if_true]
    rw [e1]
    by_cases hle : dt_to_min u + 20 * 60 ≤ dt_to_min now
    · rw [if_pos hle, if_pos hle]
      simp [complete_request, h1, h2]
    · rw [if_neg hle, if_neg hle]

/-- Concrete approved request with a parseable confirmed slot. -/
def reqC8 : Request :=
  { id := 8, user_id := 10, supplier := "Постачальник", phone := "380502223344",
    car := "20т", loading_type := "Палети", status := "approved",
    planned_date := some 739200, planned_time := some "10:00",
    date := some 739200, time := some "10:00",
    created_at := some ⟨739198, 12, 0⟩, updated_at := some ⟨739199, 12, 0⟩ }

/-- Witness for C8. -/
theorem c8_witness :
    (reqC8.status = "approved" ∧ reqC8.completed_at = none ∧
     reqC8.updated_at = some ⟨739199, 12, 0⟩) ∧
    ((∀ c, get_confirmed_datetime reqC8 = some c →
      auto_close_tick_one ⟨739201, 7, 0⟩ reqC8 =
        if dt_to_min c + 20 * 60 ≤ dt_to_min ⟨739201, 7, 0⟩
        then { reqC8 with completed_at := some ⟨739201, 7, 0⟩, updated_at := some ⟨739201, 7, 0⟩ }
        else reqC8) ∧
     (get_confirmed_datetime reqC8 = none →
      auto_close_tick_one ⟨739201, 7, 0⟩ reqC8 =
        if dt_to_min ⟨739199, 12, 0⟩ + 20 * 60 ≤ dt_to_min ⟨739201, 7, 0⟩
        then { reqC8 with completed_at := some ⟨739201, 7, 0⟩, updated_at := some ⟨739201, 7, 0⟩ }
        else reqC8)) :=
  ⟨⟨rfl, rfl, rfl⟩,
   c8_sweeper_deadline reqC8 ⟨739201, 7, 0⟩ ⟨739199, 12, 0⟩ rfl rfl rfl⟩

/-! ## C9 — authorization for admin-delete -/

/-- C9: admin-delete authorization — a non-privileged approver attempting to
delete a NEW request is refused (and nothing is removed); a privileged
approver (the superadmin id, or an admin row flagged superadmin) may delete
it; and any approver may delete a non-NEW request. -/
theorem c9_admin_delete_authorization
    (store : List Request) (admins : List AdminRec) (sa uid rid : Int)
    (r : Request) (a : AdminRec)
    (hfind : store.find? (fun q => q.id == rid) = some r)
    (hadm : admins.find? (fun x => x.telegram_id == uid) = some a) :
    (a.is_superadmin = false → uid ≠ sa → r.status = "new" →
      adm_delete store admins sa uid rid =
        .error "Заявки зі статусом Нова може видаляти лише суперадміністратор.") ∧
    ((uid = sa ∨ a.is_superadmin = true) →
      adm_delete store admins sa uid rid =
        .ok (store.filter (fun q => q.id != rid))) ∧
    (r.status ≠ "new" →
      adm_delete store admins sa uid rid =
        .ok (store.filter (fun q => q.id != rid))) := by
  refine ⟨?_, ?_, ?_⟩
  · intro hsup hne hnew
    have hbe : (uid == sa) = false := by simp [hne]
    simp [adm_delete, hfind, hadm, hbe, hsup, hnew]
  · intro hpriv
    rcases hpriv with hpe | hsup
    · have hbe : (uid == sa) = true := by simp [hpe]
      simp [adm_delete, hfind, hadm, hbe]
    · simp [adm_delete, hfind, hadm, hsup]
  · intro hnnew
    by_cases hbe : uid = sa
    · simp [adm_delete, hfind, hadm, hbe]
    · have hb : (uid == sa) = false := by simp [hbe]
      by_cases hsup : a.is_superadmin
      · simp [adm_delete, hfind, hadm, hb, hsup]
      · simp [adm_delete, hfind, hadm, hb, hsup, hnnew]

/-- Concrete NEW request and a non-privileged admin row. -/
def reqC9 : Request :=
  { id := 9, user_id := 10, supplier := "Постачальник", phone := "380503334455",
    car := "5т", loading_type := "Палети", status := "new",
    planned_date := some 739210, planned_time := some "11:00",
    date := some 739210, time := some "11:00",
    created_at := some ⟨739208, 8, 0⟩, updated_at := some ⟨739208, 8, 0⟩ }

/-- The non-privileged approver used in the C9 witness. -/
def admC9 : AdminRec := { telegram_id := 2, last_name := "Петренко" }

/-- Witness for C9. -/
theorem c9_witness :
    ([reqC9].find? (fun q => q.id == 9) = some reqC9 ∧
     [admC9].find? (fun x => x.telegram_id == 2) = some admC9) ∧
    ((admC9.is_superadmin = false → (2 : Int) ≠ 1 → reqC9.status = "new" →
      adm_delete [reqC9] [admC9] 1 2 9 =
        .error "Заявки зі статусом Нова може видаляти лише суперадміністратор.") ∧
     (((2 : Int) = 1 ∨ admC9.is_superadmin = true) →
      adm_delete [reqC9] [admC9] 1 2 9 = .ok ([reqC9].filter (fun q => q.id != 9))) ∧
     (reqC9.status ≠ "new" →
      adm_delete [reqC9] [admC9] 1 2 9 = .ok ([reqC9].filter (fun q => q.id != 9)))) :=
  ⟨⟨by decide, by decide⟩,
   c9_admin_delete_authorization [reqC9] [admC9] 1 2 9 reqC9 admC9 (by decide) (by decide)⟩

/-! ## C6 — propose-change / confirm round trip -/

/-- C6: an approver propose-change to slot `(d, t)` followed by the
requester's confirm yields status `approved` with the confirmed slot
(`date`/`time`) equal to the planned slot (`planned_date`/`planned_time`),
both being the proposed `(d, t)`. -/
theorem c6_round_trip (r : Request) (d : Int) (t reason : String)
    (aid uid : Int) (now1 now2 : DateTime)
    (hre : py_strip reason ≠ "") (ht : t ≠ "") (huid : r.user_id = uid) :
    ∃ r1 r2,
      adm_change_reason d t reason aid now1 r = some r1 ∧
      user_change_confirm uid now2 r1 = some r2 ∧
      r2.status = "approved" ∧
      r2.date = some d ∧ r2.time = some t ∧
      r2.planned_date = some d ∧ r2.planned_time = some t := by
  refine ⟨{ r with
      planned_date := some d
      planned_time := some t
      pending_date := none
      pending_time := none
      pending_reason := some (merge_pending_reason none "Admin" (py_strip reason))
      status := "pending_user_confirmation"
      admin_id := some aid
      updated_at := some now1 },
    { r with
      planned_date := some d
      planned_time := some t
      pending_date := none
      pending_time := none
      pending_reason := none
      status := "approved"
      admin_id := some aid
      updated_at := some now2
      date := some d
      time := some t }, ?_, ?_, rfl, rfl, rfl, rfl, rfl⟩
  · unfold adm_change_reason
    rw [if_neg hre, if_neg ht]
  · simp [user_change_confirm, huid, ht]

/-! ## C3 — terminal states -/

/-- C3 (amended): the requester-side transitions (confirm, decline,
counter-propose, cancel, edit) and `finish` are all refused on a terminal
record — rejected, withdrawn, or approved-and-completed — and commit no
mutation; the claim's universal form is false because the approver actions
`adm_ok` / `adm_rej_reason` / `adm_change_reason` carry no terminal-state
guard at all and do mutate terminal records. -/
theorem c3_amended_terminal_guards (a : Action) (r : Request)
    (hterm : Terminal r) (ha : a.requesterOrFinish = true) :
    step a r = none := by
  have hnpuc : r.status ≠ "pending_user_confirmation" := by
    rcases hterm with h | h | ⟨h1, _⟩
    · simp [h]
    · simp [h]
    · simp [h1]
  have hnpuf : r.status ≠ "pending_user_final" := by
    rcases hterm with h | h | ⟨h1, _⟩
    · simp [h]
    · simp [h]
    · simp [h1]
  have hfin : r.completed_at.isSome ∨ r.status ≠ "approved" := by
    rcases hterm with h | h | ⟨_, h2⟩
    · right; simp [h]
    · right; simp [h]
    · left; exact h2
  have hblock : ∃ m, get_user_modify_block_reason r = some m := by
    rcases hterm with h | h | ⟨h1, h2⟩
    · by_cases hc : r.completed_at.isSome <;>
        simp [get_user_modify_block_reason, h, hc]
    · simp [get_user_modify_block_reason, h]
    · simp [get_user_modify_block_reason, h1, h2]
  obtain ⟨m, hm⟩ := hblock
  cases a with
  | userChangeConfirm u now =>
      simp [step, user_change_confirm, hnpuc, hnpuf]
  | userChangeDeleteReason re u now =>
      simp [step, user_change_delete_reason, hnpuc, hnpuf]
  | userChangeDeclineReason re u now =>
      simp [step, user_change_decline_reason, hnpuc]
  | userCounterPropose d h mnt re u now md =>
      simp [step, user_change_minute, hnpuc]
  | finish now =>
      simp only [step]
      unfold complete_request
      rw [if_pos hfin]
  | userEditSupplier v u now =>
      simp [step, user_edit_supplier, hm]
  | userEditDateTime d h mnt u now md =>
      simp [step, user_edit_minute, hm]
  | admOk aid now => simp [Action.requesterOrFinish] at ha
  | admRejReason re aid now => simp [Action.requesterOrFinish] at ha
  | admChangeReason d t re aid now => simp [Action.requesterOrFinish] at ha
  | admKeepClientTime ia aid now => simp [Action.requesterOrFinish] at ha
  | admKeepAdminTime ia now => simp [Action.requesterOrFinish] at ha
  | admAcceptUserProposal ia aid now => simp [Action.requesterOrFinish] at ha
  | admRejectUserProposalReason re aid now => simp [Action.requesterOrFinish] at ha

/-- A rejected (terminal) request. -/
def reqC3 : Request :=
  { id := 3, user_id := 10, supplier := "Постачальник", phone := "380501112233",
    car := "5т", loading_type := "Палети", status := "rejected",
    planned_date := some 739200, planned_time := some "10:00",
    date := some 739200, time := some "10:00",
    created_at := some ⟨739198, 12, 0⟩, updated_at := some ⟨739199, 12, 0⟩ }

/-- C3 fails as stated: `adm_ok` has no terminal-state guard — an approve on
a REJECTED request succeeds and mutates the record rather than failing with
a closed-request error. -/
theorem c3_counterexample :
    Terminal reqC3 ∧
    step (Action.admOk 7 ⟨739205, 9, 0⟩) reqC3 =
      some { reqC3 with status := "approved", admin_id := some 7, updated_at := some ⟨739205, 9, 0⟩ } ∧
    ({ reqC3 with status := "approved", admin_id := some 7, updated_at := some ⟨739205, 9, 0⟩ } : Request) ≠ reqC3 := by
  exact ⟨Or.inl rfl, by decide, by decide⟩

/-- Witness for the amended C3. -/
theorem c3_witness :
    (Terminal reqC3 ∧ (Action.finish ⟨739206, 9, 0⟩).requesterOrFinish = true) ∧
    step (Action.finish ⟨739206, 9, 0⟩) reqC3 = none :=
  ⟨⟨Or.inl rfl, rfl⟩, c3_amended_terminal_guards (Action.finish ⟨739206, 9, 0⟩) reqC3 (Or.inl rfl) rfl⟩

/-! ## C4 — the negotiation log -/

/-- A present `pending_reason` is only ever extended by
`merge_pending_reason`: the old value is a prefix of the new one. -/
theorem merge_pending_reason_extends (s tag reason : String) :
    ∃ u, merge_pending_reason (some s) tag reason = s ++ u := by
  unfold merge_pending_reason
  by_cases h0 : py_strip reason = ""
  · exact ⟨"", by simp [h0]⟩
  · by_cases hse : s = ""
    · subst hse
      exact ⟨tag ++ ": " ++ py_strip reason, by simp [h0]⟩
    · exact ⟨"\n" ++ (tag ++ ": " ++ py_strip reason), by
        simp [h0, hse, String.append_assoc]⟩

/-- C4 (amended): the transitions that write the log through
`merge_pending_reason(req.pending_reason, …)` — requester decline,
counter-propose, requester cancel during negotiation, approver
keep-proposed, approver reject-counter — only append: an existing log value
is a prefix of the new one.  The claim's universal form is false: approver
propose-change resets the log to its own reason alone, approver reject and
requester delete never persist their reason, and the negotiation-resolving
entries into `approved` (requester confirm, keep-original, accept-counter)
clear the log to null, while a plain approve (`adm_ok`) leaves whatever log
is present untouched. -/
theorem c4_amended_appending_actions (a : Action) (r r' : Request) (s : String)
    (ha : a.appendsReason = true) (hstep : step a r = some r')
    (hpr : r.pending_reason = some s) :
    ∃ u, r'.pending_reason = some (s ++ u) := by
  cases a with
  | userChangeDeleteReason re u now =>
      simp only [step] at hstep
      unfold user_change_delete_reason at hstep
      repeat' split at hstep
      any_goals exact Option.noConfusion hstep
      simp only [Option.some.injEq] at hstep
      subst hstep
      obtain ⟨u, hu⟩ := merge_pending_reason_extends s "User cancel" (py_strip re)
      exact ⟨u, by simp [hpr, hu]⟩
  | userChangeDeclineReason re u now =>
      simp only [step] at hstep
      unfold user_change_decline_reason at hstep
      repeat' split at hstep
      any_goals exact Option.noConfusion hstep
      simp only [Option.some.injEq] at hstep
      subst hstep
      obtain ⟨u, hu⟩ := merge_pending_reason_extends s "User" (py_strip re)
      exact ⟨u, by simp [hpr, hu]⟩
  | userCounterPropose d h mnt re u now md =>
      simp only [step] at hstep
      unfold user_change_minute at hstep
      repeat' split at hstep
      any_goals exact Option.noConfusion hstep
      simp only [Option.some.injEq] at hstep
      subst hstep
      obtain ⟨u, hu⟩ := merge_pending_reason_extends s "User" re
      exact ⟨u, by simp [hpr, hu]⟩
  | admKeepAdminTime ia now =>
      simp only [step] at hstep
      unfold adm_keep_admin_time at hstep
      repeat' split at hstep
      any_goals exact Option.noConfusion hstep
      simp only [Option.some.injEq] at hstep
      subst hstep
      obtain ⟨u, hu⟩ := merge_pending_reason_extends s "Admin"
        "Адміністратор залишив запропонований час після відмови користувача."
      exact ⟨u, by simp [hpr, hu]⟩
  | admRejectUserProposalReason re aid now =>
      simp only [step] at hstep
      unfold adm_reject_user_proposal_reason at hstep
      repeat' split at hstep
      any_goals exact Option.noConfusion hstep
      simp only [Option.some.injEq] at hstep
      subst hstep
      obtain ⟨u, hu⟩ := merge_pending_reason_extends s "Admin" (py_strip re)
      exact ⟨u, by simp [hpr, hu]⟩
  | admOk aid now => simp [Action.appendsReason] at ha
  | admRejReason re aid now => simp [Action.appendsReason] at ha
  | admChangeReason d t re aid now => simp [Action.appendsReason] at ha
  | userChangeConfirm u now => simp [Action.appendsReason] at ha
  | admKeepClientTime ia aid now => simp [Action.appendsReason] at ha
  | admAcceptUserProposal ia aid now => simp [Action.appendsReason] at ha
  | finish now => simp [Action.appendsReason] at ha
  | userEditSupplier v u now => simp [Action.appendsReason] at ha
  | userEditDateTime d h mnt u now md => simp [Action.appendsReason] at ha

/-- A request mid-negotiation whose log already holds a recorded reason. -/
def reqC4 : Request :=
  { id := 4, user_id := 10, supplier := "Постачальник", phone := "380501112233",
    car := "5т", loading_type := "Палети", status := "pending_admin_decision",
    planned_date := some 739200, planned_time := some "10:00",
    date := some 739200, time := some "09:00",
    created_at := some ⟨739198, 12, 0⟩, updated_at := some ⟨739199, 12, 0⟩,
    pending_reason := some "User: не підходить час" }

/-- C4 fails as stated: an approver propose-change on a record whose log
holds a recorded reason resets the log to the admin reason alone — the
previously recorded reason is discarded, not appended to. -/
theorem c4_counterexample :
    reqC4.pending_reason = some "User: не підходить час" ∧
    (adm_change_reason 739205 "11:00" "зміна плану" 7 ⟨739204, 9, 0⟩ reqC4).map
        Request.pending_reason = some (some "Admin: зміна плану") ∧
    str_starts_with "User: не підходить час" "Admin: зміна плану" = false := by
  exact ⟨rfl, by decide, by decide⟩

/-- A proposal awaiting the requester, with an admin reason already logged. -/
def reqC4w : Request :=
  { id := 14, user_id := 10, supplier := "Постачальник", phone := "380501112233",
    car := "5т", loading_type := "Палети", status := "pending_user_confirmation",
    planned_date := some 739200, planned_time := some "10:00",
    date := some 739200, time := some "09:00",
    created_at := some ⟨739198, 12, 0⟩, updated_at := some ⟨739199, 12, 0⟩,
    pending_reason := some "Admin: зміна" }

/-- The record after the requester declines in the C4 witness. -/
def reqC4w2 : Request :=
  { reqC4w with status := "pending_admin_decision", pending_reason := some "Admin: зміна\nUser: запізнюся", updated_at := some ⟨739199, 13, 0⟩ }

/-- Witness for the amended C4. -/
theorem c4_witness :
    ((Action.userChangeDeclineReason "запізнюся" 10 ⟨739199, 13, 0⟩).appendsReason = true ∧
     step (Action.userChangeDeclineReason "запізнюся" 10 ⟨739199, 13, 0⟩) reqC4w = some reqC4w2 ∧
     reqC4w.pending_reason = some "Admin: зміна") ∧
    (∃ u, reqC4w2.pending_reason = some ("Admin: зміна" ++ u)) :=
  ⟨⟨rfl, by decide, rfl⟩,
   c4_amended_appending_actions (Action.userChangeDeclineReason "запізнюся" 10 ⟨739199, 13, 0⟩)
     reqC4w reqC4w2 "Admin: зміна" rfl (by decide) rfl⟩

/-! ## C1 — the counter-proposal slot discipline -/

/-- C1 (amended): `pending_date` and `pending_time` are always set and
cleared together, and the only transition that turns them from null to
non-null is the requester counter-propose, which also sets status
`pending_admin_decision`.  The claimed biconditional with the status is
false in both directions (see the counterexample): decline enters
`pending_admin_decision` with the slot null, and keep-proposed moves to
`pending_user_final` without clearing the slot. -/
theorem c1_amended_pending_slot_discipline (a : Action) (r r' : Request)
    (hstep : step a r = some r')
    (hboth : r.pending_date.isSome ↔ r.pending_time.isSome) :
    (r'.pending_date.isSome ↔ r'.pending_time.isSome) ∧
    (r.pending_date = none → r'.pending_date ≠ none →
      a.isCounterPropose = true ∧ r'.status = "pending_admin_decision") := by
  cases a with
  | admOk aid now =>
      simp only [step, Option.some.injEq] at hstep
      subst hstep
      constructor
      · simpa [adm_ok] using hboth
      · intro h1 h2
        simp [adm_ok, h1] at h2
  | admRejReason re aid now =>
      simp only [step] at hstep
      unfold adm_rej_reason at hstep
      repeat' split at hstep
      any_goals exact Option.noConfusion hstep
      simp only [Option.some.injEq] at hstep
      subst hstep
      constructor
      · simpa using hboth
      · intro h1 h2
        simp [h1] at h2
  | admChangeReason d t re aid now =>
      simp only [step] at hstep
      unfold adm_change_reason at hstep
      repeat' split at hstep
      any_goals exact Option.noConfusion hstep
      simp only [Option.some.injEq] at hstep
      subst hstep
      constructor
      · simp
      · intro h1 h2
        simp at h2
  | userChangeConfirm u now =>
      simp only [step] at hstep
      unfold user_change_confirm at hstep
      repeat' split at hstep
      any_goals exact Option.noConfusion hstep
      simp only [Option.some.injEq] at hstep
      subst hstep
      constructor
      · simp
      · intro h1 h2
        simp at h2
  | userChangeDeleteReason re u now =>
      simp only [step] at hstep
      unfold user_change_delete_reason at hstep
      repeat' split at hstep
      any_goals exact Option.noConfusion hstep
      simp only [Option.some.injEq] at hstep
      subst hstep
      constructor
      · simp
      · intro h1 h2
        simp at h2
  | userChangeDeclineReason re u now =>
      simp only [step] at hstep
      unfold user_change_decline_reason at hstep
      repeat' split at hstep
      any_goals exact Option.noConfusion hstep
      simp only [Option.some.injEq] at hstep
      subst hstep
      constructor
      · simpa using hboth
      · intro h1 h2
        simp [h1] at h2
  | userCounterPropose d h mnt re u now md =>
      simp only [step] at hstep
      unfold user_change_minute at hstep
      repeat' split at hstep
      any_goals exact Option.noConfusion hstep
      simp only [Option.some.injEq] at hstep
      subst hstep
      constructor
      · simp
      · intro h1 h2
        exact ⟨rfl, rfl⟩
  | admKeepClientTime ia aid now =>
      simp only [step] at hstep
      unfold adm_keep_client_time at hstep
      repeat' split at hstep
      any_goals exact Option.noConfusion hstep
      simp only [Option.some.injEq] at hstep
      subst hstep
      constructor
      · simp
      · intro h1 h2
        simp at h2
  | admKeepAdminTime ia now =>
      simp only [step] at hstep
      unfold adm_keep_admin_time at hstep
      repeat' split at hstep
      any_goals exact Option.noConfusion hstep
      simp only [Option.some.injEq] at hstep
      subst hstep
      constructor
      · simpa using hboth
      · intro h1 h2
        simp [h1] at h2
  | admAcceptUserProposal ia aid now =>
      simp only [step] at hstep
      unfold adm_accept_user_proposal at hstep
      repeat' split at hstep
      any_goals exact Option.noConfusion hstep
      simp only [Option.some.injEq] at hstep
      subst hstep
      constructor
      · simp
      · intro h1 h2
        simp at h2
  | admRejectUserProposalReason re aid now =>
      simp only [step] at hstep
      unfold adm_reject_user_proposal_reason at hstep
      repeat' split at hstep
      any_goals exact Option.noConfusion hstep
      simp only [Option.some.injEq] at hstep
      subst hstep
      constructor
      · simp
      · intro h1 h2
        simp at h2
  | finish now =>
      simp only [step] at hstep
      unfold complete_request at hstep
      repeat' split at hstep
      any_goals exact Option.noConfusion hstep
      simp only [Option.some.injEq] at hstep
      subst hstep
      constructor
      · simpa using hboth
      · intro h1 h2
        simp [h1] at h2
  | userEditSupplier v u now =>
      simp only [step] at hstep
      unfold user_edit_supplier at hstep
      repeat' split at hstep
      any_goals exact Option.noConfusion hstep
      simp only [Option.some.injEq] at hstep
      subst hstep
      constructor
      · simpa using hboth
      · intro h1 h2
        simp [h1] at h2
  | userEditDateTime d h mnt u now md =>
      simp only [step] at hstep
      unfold user_edit_minute at hstep
      dsimp only at hstep
      repeat' split at hstep
      any_goals exact Option.noConfusion hstep
      simp only [Option.some.injEq] at hstep
      subst hstep
      constructor
      · simpa using hboth
      · intro h1 h2
        simp [h1] at h2

/-- A proposal awaiting the requester, counter-proposal slot null. -/
def reqC1 : Request :=
  { id := 1, user_id := 10, supplier := "Постачальник", phone := "380501112233",
    car := "5т", loading_type := "Палети", status := "pending_user_confirmation",
    planned_date := some 739200, planned_time := some "10:00",
    date := some 739200, time := some "09:00",
    created_at := some ⟨739198, 12, 0⟩, updated_at := some ⟨739199, 12, 0⟩ }

/-- An approver decision pending on a counter-proposal (slot set). -/
def reqC1b : Request :=
  { reqC1 with status := "pending_admin_decision", pending_date := some 739202, pending_time := some "11:30", pending_reason := some "User: хочу пізніше" }

/-- C1 fails in both directions: a requester decline enters
`pending_admin_decision` with the counter-proposal slot still null, and
keep-proposed moves a set counter-proposal slot into `pending_user_final`
without clearing it. -/
theorem c1_counterexample :
    ((user_change_decline_reason "не встигаю" 10 ⟨739199, 13, 0⟩ reqC1).map Request.status = some "pending_admin_decision" ∧
     (user_change_decline_reason "не встигаю" 10 ⟨739199, 13, 0⟩ reqC1).map Request.pending_date = some none ∧
     (user_change_decline_reason "не встигаю" 10 ⟨739199, 13, 0⟩ reqC1).map Request.pending_time = some none) ∧
    ((adm_keep_admin_time true ⟨739199, 14, 0⟩ reqC1b).map Request.status = some "pending_user_final" ∧
     (adm_keep_admin_time true ⟨739199, 14, 0⟩ reqC1b).map Request.pending_date = some (some 739202) ∧
     (adm_keep_admin_time true ⟨739199, 14, 0⟩ reqC1b).map Request.pending_time = some (some "11:30")) := by
  decide

/-- The record after the counter-proposal of the C1 witness. -/
def reqC1w : Request :=
  { reqC1 with pending_date := some 739205, pending_time := some "10:30", status := "pending_admin_decision", pending_reason := some "User: хочу пізніше", updated_at := some ⟨739199, 13, 0⟩ }

/-- Witness for the amended C1. -/
theorem c1_witness :
    (step (Action.userCounterPropose 739205 10 30 "хочу пізніше" 10 ⟨739199, 13, 0⟩ none) reqC1 = some reqC1w ∧
     (reqC1.pending_date.isSome ↔ reqC1.pending_time.isSome)) ∧
    ((reqC1w.pending_date.isSome ↔ reqC1w.pending_time.isSome) ∧
     (reqC1.pending_date = none → reqC1w.pending_date ≠ none →
       (Action.userCounterPropose 739205 10 30 "хочу пізніше" 10 ⟨739199, 13, 0⟩ none).isCounterPropose = true ∧
       reqC1w.status = "pending_admin_decision")) :=
  ⟨⟨by decide, by decide⟩,
   c1_amended_pending_slot_discipline
     (Action.userCounterPropose 739205 10 30 "хочу пізніше" 10 ⟨739199, 13, 0⟩ none)
     reqC1 reqC1w (by decide) (by decide)⟩

/-- The request used in the C6 witness. -/
def reqC6 : Request :=
  { id := 6, user_id := 10, supplier := "Постачальник", phone := "380501112233",
    car := "5т", loading_type := "Палети", status := "new",
    planned_date := some 739200, planned_time := some "09:00",
    date := some 739200, time := some "09:00",
    created_at := some ⟨739198, 12, 0⟩, updated_at := some ⟨739198, 12, 0⟩ }

/-- Witness for C6. -/
theorem c6_witness :
    (py_strip "конфлікт на складі" ≠ "" ∧ ("11:30" : String) ≠ "" ∧ reqC6.user_id = 10) ∧
    (∃ r1 r2,
      adm_change_reason 739203 "11:30" "конфлікт на складі" 7 ⟨739201, 9, 0⟩ reqC6 = some r1 ∧
      user_change_confirm 10 ⟨739201, 10, 0⟩ r1 = some r2 ∧
      r2.status = "approved" ∧
      r2.date = some 739203 ∧ r2.time = some "11:30" ∧
      r2.planned_date = some 739203 ∧ r2.planned_time = some "11:30") :=
  ⟨⟨by decide, by decide, rfl⟩,
   c6_round_trip reqC6 739203 "11:30" "конфлікт на складі" 7 10
     ⟨739201, 9, 0⟩ ⟨739201, 10, 0⟩ (by decide) (by decide) rfl⟩

end TgBot

